import Mathlib

/-!
Shallow embedding of `HCPinterface/hcp/hcp.py` (NGPRIS): the `HCPManager`
class, the `bucketcheck` decorator and the `ProgressPercentage` progress
reporter, together with theorems settling the frozen claims about them.

Python state is made explicit:
* the remote store is a map from bucket name to its ordered object listing;
* the manager's mutable attributes `bucket` and `objects` (present/absent via
  `hasattr`) become `Option` fields;
* the local filesystem is a map from path to an optional entry (file or dir);
* exceptions become an explicit `PyError` sum carried in `Except`, and
  operations with remote/local side effects return the post-state alongside
  the `Except` result, so that state after a raised exception is observable.
-/

namespace NGPRIS

/-- Python exception kinds that can escape the embedded code.  The first four
are the project's own error classes (`hcp/errors.py`); the rest are runtime /
botocore exceptions that the code can raise or let propagate. -/
inductive PyError
  | unattachedBucketError
  | localFileExistsError
  | mismatchChecksumError
  | unknownSourceTypeError
  /-- Python `AttributeError` raised when reading a missing attribute;
  the payload names the attribute that was accessed. -/
  | attributeError (attr : String)
  /-- `botocore.exceptions.ClientError`: an error *response* from the store
  (e.g. 404 on a HEAD request). -/
  | clientError
  /-- A connectivity / I-O failure from the network layer (e.g.
  `EndpointConnectionError`).  Not a subclass of `ClientError`, so the
  `except botocore.exceptions.ClientError` clause does not catch it. -/
  | connectionError
  deriving Repr, DecidableEq

/-- A remote object descriptor: `key`, entity tag `e_tag`, `content_length`
and the object body (bodies are modelled as decoded text, matching the
`.decode('utf-8')` use in `read_object`). -/
structure RemoteObj where
  key : String
  e_tag : String
  content_length : Nat
  body : String
  deriving Repr, DecidableEq

/-- The remote store: each bucket name is mapped to the ordered listing that
`bucket.objects.all()` would enumerate. -/
def Store := String → List RemoteObj

/-- Replace bucket `b`'s listing (the effect of a remote mutation). -/
def Store.update (store : Store) (b : String) (objs : List RemoteObj) : Store :=
  fun b' => if b' = b then objs else store b'

/-- `bucket.Object(key)` existence: first listed object with this key. -/
def lookupKey (objs : List RemoteObj) (key : String) : Option RemoteObj :=
  objs.find? (fun o => o.key == key)

/-- The result of a transfer-level upload of body `body` to `remote_key`:
the store replaces any object under that key. -/
def putObj (objs : List RemoteObj) (o : RemoteObj) : List RemoteObj :=
  objs.filter (fun x => x.key ≠ o.key) ++ [o]

/-- Python's `sub in hay` substring test on strings. -/
def strContains (hay sub : String) : Bool :=
  decide (sub.data <:+: hay.data)

/-- The mutable attributes of an `HCPManager` instance that the embedded
operations read or write.  `bucket = none` models the state before
`attach_bucket` ran (`hasattr(self, 'bucket')` is false), `objects = none`
the state before the listing cache was populated.  The connection fields
(`endpoint`, keys, `s3`, `transfer_config`) are immutable after `__init__`
and play no role in the claims, so they are not carried. -/
structure HCPManager where
  bucket : Option String
  objects : Option (List RemoteObj)
  deriving Repr, DecidableEq

/-- The `@bucketcheck` decorator for operations whose only result is a return
value or an exception: run the body with the attached bucket name, or raise
`UnattachedBucketError`. -/
def bucketcheck {α : Type} (m : HCPManager) (fn : String → Except PyError α) :
    Except PyError α :=
  match m.bucket with
  | some b => fn b
  | none => .error .unattachedBucketError

/-- `HCPManager.attach_bucket`: set `self.bucket` and `delattr` any cached
`self.objects` listing. -/
def attach_bucket (_m : HCPManager) (b : String) : HCPManager :=
  { bucket := some b, objects := none }

/-- `HCPManager.get_object`: HEAD the exact key (`obj.content_length`).
A 404 comes back as a `ClientError` response, is caught, and `None` is
returned; a connectivity failure (`netOk = false`) is not a `ClientError`
and propagates.  No manager or store state is touched. -/
def get_object (store : Store) (netOk : Bool) (m : HCPManager) (key : String) :
    Except PyError (Option RemoteObj) :=
  bucketcheck m fun b =>
    if netOk then
      match lookupKey (store b) key with
      | some o => .ok (some o)
      | none => .ok none
    else
      .error .connectionError

/-- `HCPManager.get_objects`: return the cached listing when present,
otherwise list the bucket once and cache the result.  The manager after the
call is returned alongside. -/
def get_objects (store : Store) (m : HCPManager) :
    Except PyError (List RemoteObj) × HCPManager :=
  match m.bucket with
  | none => (.error .unattachedBucketError, m)
  | some b =>
    match m.objects with
    | some objs => (.ok objs, m)
    | none => (.ok (store b), { m with objects := some (store b) })

/-- `HCPManager.reload_objects`: always re-list the bucket and replace the
cache. -/
def reload_objects (store : Store) (m : HCPManager) :
    Except PyError (List RemoteObj) × HCPManager :=
  match m.bucket with
  | none => (.error .unattachedBucketError, m)
  | some b => (.ok (store b), { m with objects := some (store b) })

/-- `HCPManager.search_objects`: lazily populate the cache via
`get_objects` when `self.objects` is absent, then filter the cached listing
by substring containment in the key. -/
def search_objects (store : Store) (m : HCPManager) (s : String) :
    Except PyError (List RemoteObj) × HCPManager :=
  match m.bucket with
  | none => (.error .unattachedBucketError, m)
  | some _b =>
    let m' := if m.objects.isNone then (get_objects store m).2 else m
    (.ok ((m'.objects.getD []).filter (fun o => strContains o.key s)), m')

/-- `HCPManager.delete_object`: batch-delete request naming exactly the given
object's key; every listed object under that key is removed. -/
def delete_object (store : Store) (m : HCPManager) (o : RemoteObj) :
    Except PyError Unit × Store :=
  match m.bucket with
  | none => (.error .unattachedBucketError, store)
  | some b =>
    (.ok (), store.update b ((store b).filter (fun x => x.key ≠ o.key)))

/-- `HCPManager.upload_file`: stream the local file (body `localBody`) to
`remote_key`; the store records the object with the entity tag *it* computed
(`storeEtag` — an environment input, since the transfer may corrupt).  Then
compute the local reference etag (`calcEtag` abstracts
`helpers.calculate_etag`, external to this module), re-fetch the object and
compare; on mismatch delete the remote object and raise
`MismatchChecksumError`. -/
def upload_file (store : Store) (netOk : Bool) (calcEtag : String → String)
    (storeEtag : String) (m : HCPManager)
    (local_path remote_key : String) (localBody : String) :
    Except PyError Unit × Store :=
  match m.bucket with
  | none => (.error .unattachedBucketError, store)
  | some b =>
    let uploaded : RemoteObj :=
      { key := remote_key, e_tag := storeEtag,
        content_length := localBody.length, body := localBody }
    let store1 := store.update b (putObj (store b) uploaded)
    let calculated_etag := calcEtag local_path
    match get_object store1 netOk m remote_key with
    | .error e => (.error e, store1)
    | .ok none =>
      -- `remote_obj` is `None`: reading `.e_tag` on it raises AttributeError
      (.error (.attributeError "e_tag"), store1)
    | .ok (some remote_obj) =>
      if calculated_etag ≠ remote_obj.e_tag then
        match delete_object store1 m remote_obj with
        | (.error e, store2) => (.error e, store2)
        | (.ok _, store2) => (.error .mismatchChecksumError, store2)
      else
        (.ok (), store1)

/-- A local filesystem entry. -/
inductive FSEntry
  | file (content : String)
  | dir
  deriving Repr, DecidableEq

/-- The local filesystem: path → entry (absent paths map to `none`). -/
def FS := String → Option FSEntry

/-- `os.path.join(d, b)` for the shapes used here. -/
def joinPath (d b : String) : String := d ++ "/" ++ b

/-- `os.path.basename`: the component after the last slash. -/
def basename (p : String) : String := (p.splitOn "/").getLastD ""

/-- The `obj` argument of `download_file`: a bare key string or an object
descriptor. -/
inductive DLArg
  | key (k : String)
  | obj (o : RemoteObj)
  deriving Repr, DecidableEq

/-- `HCPManager.download_file`: resolve a string argument via `get_object`
(possibly to the `None` sentinel); if the local path is a directory, join the
object's basename onto it (reading `.key` — an `AttributeError` on the
sentinel); refuse to overwrite an existing path unless `force`; then stream
the remote bytes to the target (reading `.key` again — the other
`AttributeError` site for the sentinel).  A missing remote key at transfer
time surfaces as a `ClientError` from the store. -/
def download_file (store : Store) (netOk : Bool) (fs : FS) (m : HCPManager)
    (arg : DLArg) (local_path : String) (force : Bool) :
    Except PyError Unit × FS :=
  match m.bucket with
  | none => (.error .unattachedBucketError, fs)
  | some b =>
    let robj : Except PyError (Option RemoteObj) :=
      match arg with
      | .key k => get_object store netOk m k
      | .obj o => .ok (some o)
    match robj with
    | .error e => (.error e, fs)
    | .ok objOpt =>
      let target : Except PyError String :=
        if fs local_path = some .dir then
          match objOpt with
          | none => .error (.attributeError "key")
          | some o => .ok (joinPath local_path (basename o.key))
        else .ok local_path
      match target with
      | .error e => (.error e, fs)
      | .ok target =>
        if (fs target).isSome && !force then
          (.error .localFileExistsError, fs)
        else
          match objOpt with
          | none => (.error (.attributeError "key"), fs)
          | some o =>
            match lookupKey (store b) o.key with
            | some remote =>
              (.ok (), fun p => if p = target then some (.file remote.body) else fs p)
            | none => (.error .clientError, fs)

/-- `HCPManager.read_object`: fetch and decode the body only when the object
is smaller than the arbitrary 100000-byte cutoff; otherwise return `''`
without fetching. -/
def read_object (m : HCPManager) (o : RemoteObj) : Except PyError String :=
  bucketcheck m fun _b =>
    if o.content_length < 100000 then .ok o.body else .ok ""

/-! ### ProgressPercentage -/

/-- The `source` argument of `ProgressPercentage.__init__`, by the branch of
the `isinstance`/`hasattr` chain it hits: a local path string, an object
summary exposing `.size`, an object exposing `.content_length`, or anything
else. -/
inductive Source
  | localPath (p : String)
  | objectSummary (size : Nat)
  | object (content_length : Nat)
  | other
  deriving Repr, DecidableEq

/-- Mutable state of a `ProgressPercentage` instance.  Wall-clock times are
modelled as rationals. -/
structure ProgressState where
  size : Nat
  seen_so_far : Nat
  previous_time : ℚ
  previous_bytesize : Nat
  interval : ℚ
  speed : ℚ
  deriving Repr, DecidableEq

/-- `ProgressPercentage.__init__` at wall-clock time `now`.  Resolving a
string source reads the local file's size; an unrecognized source reaches the
`raise UnknownSourceTypeError(f'... {self.source}')` line, whose message
f-string reads the nonexistent attribute `source` (the field is `_source`),
so Python raises `AttributeError` while building the message and the
`UnknownSourceTypeError` is never constructed. -/
def progress_init (fs : FS) (now : ℚ) (source : Source) :
    Except PyError ProgressState :=
  match source with
  | .localPath p =>
    match fs p with
    | some (.file c) =>
      .ok { size := c.length, seen_so_far := 0, previous_time := now,
            previous_bytesize := 0, interval := 1, speed := 0 }
    | _ => .error .clientError
  | .objectSummary n =>
    .ok { size := n, seen_so_far := 0, previous_time := now,
          previous_bytesize := 0, interval := 1, speed := 0 }
  | .object n =>
    .ok { size := n, seen_so_far := 0, previous_time := now,
          previous_bytesize := 0, interval := 1, speed := 0 }
  | .other => .error (.attributeError "source")

/-- Python `round(q, 2)` up to tie-breaking mode (Python rounds ties to even;
no claim depends on the tie case). -/
def round2 (q : ℚ) : ℚ := (round (q * 100) : ℤ) / 100

/-- `ProgressPercentage._calculate_speed` at wall-clock time `curr_time`:
recompute the smoothed speed and reset the sample baseline only when
`curr_time - self._interval > self._previous_time`; otherwise return the
previously computed speed unchanged. -/
def calculate_speed (s : ProgressState) (curr_time : ℚ) : ℚ × ProgressState :=
  if curr_time - s.interval > s.previous_time then
    let speed := ((s.seen_so_far : ℚ) - (s.previous_bytesize : ℚ)) /
                 (curr_time - s.previous_time)
    let sp := round2 (speed / 1024 ^ 2)
    (sp, { s with speed := sp, previous_time := curr_time,
                  previous_bytesize := s.seen_so_far })
  else
    (s.speed, s)

/-- `ProgressPercentage.__call__` at wall-clock time `curr_time`: accumulate
the byte delta under the lock, then update the speed state.  (The rendering
write to stdout carries no further state.) -/
def progress_call (s : ProgressState) (bytes_amount : Nat) (curr_time : ℚ) :
    ProgressState :=
  let s1 := { s with seen_so_far := s.seen_so_far + bytes_amount }
  (calculate_speed s1 curr_time).2

/-- The target path `download_file` actually writes to / guards: the basename
of the object's key joined onto `local_path` when the latter is a directory,
else `local_path` itself. -/
def resolvedTarget (fs : FS) (local_path key : String) : String :=
  if fs local_path = some .dir then joinPath local_path (basename key) else local_path

/-! ### Helper lemmas -/

theorem lookupKey_putObj (objs : List RemoteObj) (o : RemoteObj) :
    lookupKey (putObj objs o) o.key = some o := by
  unfold lookupKey putObj
  induction objs with
  | nil => simp
  | cons x xs ih =>
    by_cases hx : x.key = o.key
    · simp [hx, ih]
    · simp [hx, ih]

theorem lookupKey_filter_ne (objs : List RemoteObj) (k : String)
    (p : RemoteObj → Bool) (hp : ∀ x, p x = true → x.key ≠ k) :
    lookupKey (objs.filter p) k = none := by
  unfold lookupKey
  rw [List.find?_eq_none]
  intro x hx
  have hne := hp x (List.mem_filter.mp hx).2
  simpa using hne

/-! ### Claims -/

/-- C8: `attach_bucket` binds the manager to the named bucket and removes any
previously cached listing, so the next listing or search loads the newly
attached bucket's listing fresh (cache and bucket stay 1:1). -/
theorem attach_bucket_resets_cache (m : HCPManager) (b s : String) (store : Store) :
    (attach_bucket m b).bucket = some b ∧
    (attach_bucket m b).objects = none ∧
    get_objects store (attach_bucket m b) =
      (.ok (store b), { bucket := some b, objects := some (store b) }) ∧
    search_objects store (attach_bucket m b) s =
      (.ok ((store b).filter (fun o => strContains o.key s)),
       { bucket := some b, objects := some (store b) }) := by
  refine ⟨rfl, rfl, rfl, ?_⟩
  simp [attach_bucket, search_objects, get_objects]

/-- C9: `read_object` on an attached bucket returns the decoded body exactly
when the object's content length is under 100000 bytes, returns `''` for
larger objects without fetching, and its return value cannot distinguish a
large object from an empty one. -/
theorem read_object_size_gate (m : HCPManager) (b : String)
    (h : m.bucket = some b) :
    (∀ o : RemoteObj, o.content_length < 100000 → read_object m o = .ok o.body) ∧
    (∀ o : RemoteObj, ¬ o.content_length < 100000 → read_object m o = .ok "") ∧
    (∀ big small : RemoteObj, ¬ big.content_length < 100000 →
      small.content_length < 100000 → small.body = "" →
      read_object m big = read_object m small) := by
  refine ⟨fun o ho => ?_, fun o ho => ?_, fun big small hbig hsmall hbody => ?_⟩
  · simp [read_object, bucketcheck, h, ho]
  · simp [read_object, bucketcheck, h, ho]
  · simp [read_object, bucketcheck, h, hbig, hsmall, hbody]

/-- Witness for C9 at a concrete attached manager and a 5-byte object. -/
theorem read_object_size_gate_witness :
    read_object ⟨some "b", none⟩ ⟨"k", "e", 5, "hello"⟩ = .ok "hello" :=
  (read_object_size_gate ⟨some "b", none⟩ "b" rfl).1 ⟨"k", "e", 5, "hello"⟩ (by decide)

/-- C3: every object-level operation called on a manager with no attached
bucket raises `UnattachedBucketError` and leaves every piece of state (the
manager, the remote store, the local filesystem) untouched. -/
theorem unattached_ops_fail (store : Store) (netOk : Bool) (fs : FS)
    (m : HCPManager) (calcEtag : String → String)
    (etag key lp rk lb s : String) (o : RemoteObj) (arg : DLArg) (force : Bool)
    (h : m.bucket = none) :
    get_object store netOk m key = .error .unattachedBucketError ∧
    get_objects store m = (.error .unattachedBucketError, m) ∧
    reload_objects store m = (.error .unattachedBucketError, m) ∧
    search_objects store m s = (.error .unattachedBucketError, m) ∧
    upload_file store netOk calcEtag etag m lp rk lb =
      (.error .unattachedBucketError, store) ∧
    download_file store netOk fs m arg lp force =
      (.error .unattachedBucketError, fs) ∧
    delete_object store m o = (.error .unattachedBucketError, store) ∧
    read_object m o = .error .unattachedBucketError := by
  obtain ⟨bk, objs⟩ := m
  cases h
  exact ⟨rfl, rfl, rfl, rfl, rfl, rfl, rfl, rfl⟩

/-- Witness for C3 at a concrete unattached manager. -/
theorem unattached_ops_fail_witness :
    get_object (fun _ => []) true ⟨none, none⟩ "k" = .error .unattachedBucketError ∧
    get_objects (fun _ => []) ⟨none, none⟩ = (.error .unattachedBucketError, ⟨none, none⟩) ∧
    reload_objects (fun _ => []) ⟨none, none⟩ = (.error .unattachedBucketError, ⟨none, none⟩) ∧
    search_objects (fun _ => []) ⟨none, none⟩ "s" = (.error .unattachedBucketError, ⟨none, none⟩) ∧
    upload_file (fun _ => []) true id "e" ⟨none, none⟩ "lp" "rk" "body" =
      (.error .unattachedBucketError, fun _ => []) ∧
    download_file (fun _ => []) true (fun _ => none) ⟨none, none⟩ (.key "k") "lp" false =
      (.error .unattachedBucketError, fun _ => none) ∧
    delete_object (fun _ => []) ⟨none, none⟩ ⟨"k", "e", 0, ""⟩ =
      (.error .unattachedBucketError, fun _ => []) ∧
    read_object ⟨none, none⟩ ⟨"k", "e", 0, ""⟩ = .error .unattachedBucketError :=
  unattached_ops_fail (fun _ => []) true (fun _ => none) ⟨none, none⟩ id
    "e" "k" "lp" "rk" "body" "s" ⟨"k", "e", 0, ""⟩ (.key "k") false rfl

/-- C5: `get_object` on an attached bucket returns the `None` sentinel
(`Except.ok none`, not an exception) for a key with no remote object, while a
connectivity failure propagates as an error and is never the sentinel. -/
theorem get_object_not_found_sentinel (store : Store) (m : HCPManager)
    (b key : String) (h : m.bucket = some b) :
    (lookupKey (store b) key = none → get_object store true m key = .ok none) ∧
    get_object store false m key = .error .connectionError ∧
    (∀ r : Option RemoteObj, get_object store false m key ≠ .ok r) := by
  refine ⟨fun hnf => ?_, ?_, fun r hcon => ?_⟩
  · simp [get_object, bucketcheck, h, hnf]
  · simp [get_object, bucketcheck, h]
  · simp [get_object, bucketcheck, h] at hcon

/-- Witness for C5 on an empty bucket. -/
theorem get_object_not_found_sentinel_witness :
    get_object (fun _ => []) true ⟨some "b", none⟩ "k" = .ok none :=
  (get_object_not_found_sentinel (fun _ => []) ⟨some "b", none⟩ "b" "k" rfl).1 rfl

/-- C2: `search_objects` on an attached bucket reuses an existing cached
listing (never reloading it) and lazily loads the listing once when absent;
in both cases it returns exactly the cached descriptors whose key contains
the search string as a substring, in listing order (an empty filter result is
an ordinary `Except.ok []`, not an error). -/
theorem search_objects_spec (store : Store) (m : HCPManager) (b s : String)
    (h : m.bucket = some b) :
    (∀ l, m.objects = some l →
      search_objects store m s =
        (.ok (l.filter (fun o => strContains o.key s)), m)) ∧
    (m.objects = none →
      search_objects store m s =
        (.ok ((store b).filter (fun o => strContains o.key s)),
         { m with objects := some (store b) })) := by
  refine ⟨fun l hl => ?_, fun hn => ?_⟩
  · simp [search_objects, get_objects, h, hl]
  · simp [search_objects, get_objects, h, hn]

/-- Witness for C2: a populated cache with keys `run1/sampleA.fastq`,
`run1/sampleB.fastq`, `run2/sampleA.fastq`; searching `sampleA` returns the
two matching descriptors in listing order, without touching the cache. -/
theorem search_objects_spec_witness :
    search_objects (fun _ => [])
      ⟨some "b", some [⟨"run1/sampleA.fastq", "e1", 1, "x"⟩,
                       ⟨"run1/sampleB.fastq", "e2", 1, "y"⟩,
                       ⟨"run2/sampleA.fastq", "e3", 1, "z"⟩]⟩ "sampleA" =
      (.ok [⟨"run1/sampleA.fastq", "e1", 1, "x"⟩,
            ⟨"run2/sampleA.fastq", "e3", 1, "z"⟩],
       ⟨some "b", some [⟨"run1/sampleA.fastq", "e1", 1, "x"⟩,
                        ⟨"run1/sampleB.fastq", "e2", 1, "y"⟩,
                        ⟨"run2/sampleA.fastq", "e3", 1, "z"⟩]⟩) := by
  rw [(search_objects_spec (fun _ => [])
        ⟨some "b", some [⟨"run1/sampleA.fastq", "e1", 1, "x"⟩,
                         ⟨"run1/sampleB.fastq", "e2", 1, "y"⟩,
                         ⟨"run2/sampleA.fastq", "e3", 1, "z"⟩]⟩ "b" "sampleA" rfl).1
      [⟨"run1/sampleA.fastq", "e1", 1, "x"⟩,
       ⟨"run1/sampleB.fastq", "e2", 1, "y"⟩,
       ⟨"run2/sampleA.fastq", "e3", 1, "z"⟩] rfl]
  rfl

/-- C6: `_calculate_speed` recomputes the smoothed speed and resets the
sample baseline exactly when the elapsed wall-clock time since the baseline
exceeds the 1-second interval; any invocation within the interval returns the
previous speed with the state untouched, so after a recomputation at `t₁`
every further `__call__` at `t₂ ≤ t₁ + 1` only accumulates bytes and reuses
the speed — at most one recomputation per interval however often the callback
fires. -/
theorem calculate_speed_interval_gate (s : ProgressState) (t₁ t₂ : ℚ)
    (b₁ b₂ : Nat) (hint : s.interval = 1) :
    (t₁ - s.previous_time ≤ 1 → calculate_speed s t₁ = (s.speed, s)) ∧
    (t₁ - s.previous_time > 1 →
      (calculate_speed s t₁).2.previous_time = t₁ ∧
      (calculate_speed s t₁).2.previous_bytesize = s.seen_so_far ∧
      (calculate_speed s t₁).1 =
        round2 ((((s.seen_so_far : ℚ) - (s.previous_bytesize : ℚ)) /
                  (t₁ - s.previous_time)) / 1024 ^ 2)) ∧
    (t₁ - s.previous_time > 1 → t₂ - t₁ ≤ 1 →
      progress_call (progress_call s b₁ t₁) b₂ t₂ =
        { progress_call s b₁ t₁ with
            seen_so_far := (progress_call s b₁ t₁).seen_so_far + b₂ }) := by
  have hgate : ∀ t : ℚ, (t - s.interval > s.previous_time) ↔ t - s.previous_time > 1 := by
    intro t; rw [hint]; constructor <;> intro <;> linarith
  refine ⟨fun hle => ?_, fun hgt => ?_, fun hgt hle => ?_⟩
  · have : ¬ (t₁ - s.interval > s.previous_time) := by rw [hgate]; linarith
    simp [calculate_speed, this]
  · have hc : t₁ - s.interval > s.previous_time := (hgate t₁).mpr hgt
    simp [calculate_speed, hc]
  · have hc1 : t₁ - s.interval > s.previous_time := (hgate t₁).mpr hgt
    have hprev : (progress_call s b₁ t₁).previous_time = t₁ := by
      simp [progress_call, calculate_speed, hc1]
    have hintv : (progress_call s b₁ t₁).interval = 1 := by
      unfold progress_call calculate_speed
      dsimp only
      split <;> exact hint
    have hc2 : ¬ (t₂ - (progress_call s b₁ t₁).interval >
        (progress_call s b₁ t₁).previous_time) := by
      rw [hprev, hintv]
      intro hcon
      linarith
    have hc2' : ¬ (t₂ - ({ progress_call s b₁ t₁ with
          seen_so_far := (progress_call s b₁ t₁).seen_so_far + b₂ } : ProgressState).interval >
        ({ progress_call s b₁ t₁ with
          seen_so_far := (progress_call s b₁ t₁).seen_so_far + b₂ } : ProgressState).previous_time) :=
      hc2
    show (calculate_speed { progress_call s b₁ t₁ with
            seen_so_far := (progress_call s b₁ t₁).seen_so_far + b₂ } t₂).2 =
         { progress_call s b₁ t₁ with
            seen_so_far := (progress_call s b₁ t₁).seen_so_far + b₂ }
    unfold calculate_speed
    rw [if_neg hc2']

/-- Witness for C6: a call half a second after the baseline leaves speed and
state untouched. -/
theorem calculate_speed_interval_gate_witness :
    calculate_speed ⟨10, 5, 0, 0, 1, 0⟩ (1 / 2) = (0, ⟨10, 5, 0, 0, 1, 0⟩) :=
  (calculate_speed_interval_gate ⟨10, 5, 0, 0, 1, 0⟩ (1 / 2) 0 0 0 rfl).1 (by norm_num)

/-- C1: `upload_file` on an attached bucket: when the locally computed etag
differs from the entity tag of the freshly fetched remote object, the
just-uploaded remote object is deleted and the call fails with
`MismatchChecksumError`, so the key no longer resolves in the final store;
when they agree, the call succeeds and the store holds exactly the uploaded
object with no further effect. -/
theorem upload_file_checksum_verify (store : Store) (calcEtag : String → String)
    (storeEtag : String) (m : HCPManager) (b lp rk lb : String)
    (h : m.bucket = some b) :
    (calcEtag lp ≠ storeEtag →
      (upload_file store true calcEtag storeEtag m lp rk lb).1 =
        .error .mismatchChecksumError ∧
      lookupKey ((upload_file store true calcEtag storeEtag m lp rk lb).2 b) rk = none) ∧
    (calcEtag lp = storeEtag →
      upload_file store true calcEtag storeEtag m lp rk lb =
        (.ok (), store.update b (putObj (store b)
          { key := rk, e_tag := storeEtag, content_length := lb.length, body := lb }))) := by
  have hfetch : lookupKey (putObj (store b)
      { key := rk, e_tag := storeEtag, content_length := lb.length, body := lb }) rk =
      some { key := rk, e_tag := storeEtag, content_length := lb.length, body := lb } :=
    lookupKey_putObj (store b) _
  refine ⟨fun hne => ?_, fun heq => ?_⟩
  · constructor
    · simp [upload_file, get_object, bucketcheck, delete_object, Store.update,
        h, hfetch, hne]
    · simp [upload_file, get_object, bucketcheck, delete_object, Store.update,
        h, hfetch, hne]
      exact lookupKey_filter_ne _ rk _ (fun x hx => by simpa using hx)
  · simp [upload_file, get_object, bucketcheck, delete_object, Store.update,
      h, hfetch, heq]

/-- Witness for C1: uploading with a corrupted store-side etag fails with
`MismatchChecksumError` and leaves no object under the key. -/
theorem upload_file_checksum_verify_witness :
    (upload_file (fun _ => []) true (fun _ => "good") "bad"
        ⟨some "b", none⟩ "f.fastq" "runs/f.fastq" "data").1 =
      .error .mismatchChecksumError ∧
    lookupKey ((upload_file (fun _ => []) true (fun _ => "good") "bad"
        ⟨some "b", none⟩ "f.fastq" "runs/f.fastq" "data").2 "b") "runs/f.fastq" = none :=
  (upload_file_checksum_verify (fun _ => []) (fun _ => "good") "bad"
      ⟨some "b", none⟩ "b" "f.fastq" "runs/f.fastq" "data" rfl).1 (by decide)

/-- C4: `download_file` with a descriptor argument on an attached bucket:
when the resolved target path already exists as a file and `force` is false,
the call raises `LocalFileExistsError` and the local filesystem — in
particular the existing file's contents — is returned untouched, no bytes
having been written; with `force` true the transfer proceeds and the target
is overwritten with the remote object's bytes. -/
theorem download_file_overwrite_guard (store : Store) (fs : FS)
    (m : HCPManager) (b lp : String) (o remote : RemoteObj) (netOk : Bool)
    (h : m.bucket = some b) :
    (∀ c, fs (resolvedTarget fs lp o.key) = some (.file c) →
      download_file store netOk fs m (.obj o) lp false =
        (.error .localFileExistsError, fs)) ∧
    (lookupKey (store b) o.key = some remote →
      download_file store netOk fs m (.obj o) lp true =
        (.ok (), fun p =>
          if p = resolvedTarget fs lp o.key then some (.file remote.body) else fs p)) := by
  refine ⟨fun c hc => ?_, fun hkey => ?_⟩
  · by_cases hdir : fs lp = some .dir
    · simp [download_file, h, resolvedTarget, hdir] at hc ⊢
      simp [hc]
    · simp [download_file, h, resolvedTarget, hdir] at hc ⊢
      simp [hc]
  · by_cases hdir : fs lp = some .dir
    · simp [download_file, h, resolvedTarget, hdir, hkey]
    · simp [download_file, h, resolvedTarget, hdir, hkey]

/-- Witness for C4: downloading onto an existing local file without `force`
fails with `LocalFileExistsError` and leaves the filesystem untouched. -/
theorem download_file_overwrite_guard_witness :
    download_file (fun _ => [⟨"k", "e", 3, "new"⟩]) true
      (fun p => if p = "out" then some (.file "old") else none)
      ⟨some "b", none⟩ (.obj ⟨"k", "e", 3, "new"⟩) "out" false =
      (.error .localFileExistsError,
       fun p => if p = "out" then some (.file "old") else none) :=
  (download_file_overwrite_guard (fun _ => [⟨"k", "e", 3, "new"⟩])
      (fun p => if p = "out" then some (.file "old") else none)
      ⟨some "b", none⟩ "b" "out" ⟨"k", "e", 3, "new"⟩ ⟨"k", "e", 3, "new"⟩
      true rfl).1 "old" (by simp [resolvedTarget])

/-- C10 counterexample: with the key absent remotely (so `get_object` yields
the sentinel) but the local destination an existing regular file and `force`
false, `download_file` raises the documented `LocalFileExistsError` — not an
`AttributeError` from dereferencing the sentinel — refuting the claim that
every such call fails by the sentinel dereference. -/
theorem download_sentinel_unguarded_counterexample :
    get_object (fun _ => []) true ⟨some "b", none⟩ "k" = .ok none ∧
    download_file (fun _ => []) true
      (fun p => if p = "out.txt" then some (.file "old") else none)
      ⟨some "b", none⟩ (.key "k") "out.txt" false =
      (.error .localFileExistsError,
       fun p => if p = "out.txt" then some (.file "old") else none) ∧
    (download_file (fun _ => []) true
      (fun p => if p = "out.txt" then some (.file "old") else none)
      ⟨some "b", none⟩ (.key "k") "out.txt" false).1 ≠
      .error (.attributeError "key") := by
  refine ⟨rfl, rfl, fun hcon => ?_⟩
  exact PyError.noConfusion (Except.error.inj hcon)

/-- C10 (amended): when `get_object` resolves the key to the `None` sentinel,
`download_file` fails by dereferencing the sentinel's `key` attribute
(`AttributeError`) in every case — destination a directory, destination
absent, or `force` set — except the single case where the destination is an
existing non-directory path and `force` is false, where the overwrite guard
fires first with the documented `LocalFileExistsError`. -/
theorem download_sentinel_deref_amended (store : Store) (fs : FS)
    (m : HCPManager) (b k lp : String) (force : Bool)
    (h : m.bucket = some b) (hnf : lookupKey (store b) k = none) :
    (fs lp = some .dir →
      download_file store true fs m (.key k) lp force =
        (.error (.attributeError "key"), fs)) ∧
    (fs lp ≠ some .dir → (fs lp).isSome → force = false →
      download_file store true fs m (.key k) lp force =
        (.error .localFileExistsError, fs)) ∧
    (fs lp ≠ some .dir → ((fs lp).isSome = false ∨ force = true) →
      download_file store true fs m (.key k) lp force =
        (.error (.attributeError "key"), fs)) := by
  refine ⟨fun hdir => ?_, fun hdir hex hf => ?_, fun hdir hcase => ?_⟩
  · simp [download_file, get_object, bucketcheck, h, hnf, hdir]
  · simp [download_file, get_object, bucketcheck, h, hnf, hdir, hex, hf]
  · rcases hcase with hab | hfo
    · simp [download_file, get_object, bucketcheck, h, hnf, hdir, hab]
    · simp [download_file, get_object, bucketcheck, h, hnf, hdir, hfo]

/-- Witness for the amended C10: key absent, destination absent, `force`
false — the call dies on the sentinel's `key` attribute. -/
theorem download_sentinel_deref_amended_witness :
    download_file (fun _ => []) true (fun _ => none)
      ⟨some "b", none⟩ (.key "k") "out.txt" false =
      (.error (.attributeError "key"), fun _ => none) :=
  (download_sentinel_deref_amended (fun _ => []) (fun _ => none)
      ⟨some "b", none⟩ "b" "k" "out.txt" false rfl rfl).2.2
    (by simp) (Or.inl rfl)

/-- C7 (code bug): a source of unrecognized type does make `__init__` fail
fast, but with `AttributeError`, not `UnknownSourceTypeError`: the error
message f-string reads the nonexistent attribute `source` (the field is
`_source`), so the intended exception is never constructed. -/
theorem progress_init_unknown_source_attribute_error :
    progress_init (fun _ => none) 0 .other = .error (.attributeError "source") ∧
    progress_init (fun _ => none) 0 .other ≠ .error .unknownSourceTypeError := by
  refine ⟨rfl, fun hcon => ?_⟩
  exact PyError.noConfusion (Except.error.inj hcon)

end NGPRIS
